import Mathlib

/-!
Shallow embedding of the Expression Multiplexer firmware
(src/ExpMultiplexer/ExpMultiplexer.ino).

The firmware keeps its whole configuration in globals; we bundle them in a
structure `FwSt`.  One pass of the main `loop()` is modelled by `loopStep`,
which also returns, per output channel, the value (if any) written to the
digital potentiometer in that pass (`WritePotSPI` calls).  The EEPROM codec
`UpdateNvmData` / `ReadNvmData` is modelled by `encodeNvm` / `readNvmData`.
Machine bytes are modelled as `Nat` with explicit `% 256` where the C code
truncates to a byte.  The bounded C `for` loops over 4-element arrays are
unrolled or written as guarded function updates over the index range 0..3.
-/

namespace ExpMult

/-- Lookup table `LogPot[256]` from the firmware source, verbatim. -/
def LogPot : List Nat := [
  0, 0, 0, 0, 0, 0, 0, 0, 0, 0, 0, 0, 1, 1, 1, 1,
  1, 1, 1, 1, 2, 2, 2, 2, 2, 2, 3, 3, 3, 3, 4, 4,
  4, 4, 5, 5, 5, 5, 6, 6, 6, 7, 7, 7, 8, 8, 8, 9,
  9, 9, 10, 10, 11, 11, 11, 12, 12, 13, 13, 14, 14, 15, 15, 16,
  16, 17, 17, 18, 18, 19, 19, 20, 20, 21, 21, 22, 23, 23, 24, 24,
  25, 26, 26, 27, 28, 28, 29, 30, 30, 31, 32, 32, 33, 34, 35, 35,
  36, 37, 38, 38, 39, 40, 41, 42, 42, 43, 44, 45, 46, 47, 47, 48,
  49, 50, 51, 52, 53, 54, 55, 56, 56, 57, 58, 59, 60, 61, 62, 63,
  64, 65, 66, 67, 68, 69, 70, 71, 73, 74, 75, 76, 77, 78, 79, 80,
  81, 82, 84, 85, 86, 87, 88, 89, 91, 92, 93, 94, 95, 97, 98, 99,
  100, 102, 103, 104, 105, 107, 108, 109, 111, 112, 113, 115, 116, 117, 119, 120,
  121, 123, 124, 126, 127, 128, 130, 131, 133, 134, 136, 137, 139, 140, 142, 143,
  145, 146, 148, 149, 151, 152, 154, 155, 157, 158, 160, 162, 163, 165, 166, 168,
  170, 171, 173, 175, 176, 178, 180, 181, 183, 185, 186, 188, 190, 192, 193, 195,
  197, 199, 200, 202, 204, 206, 207, 209, 211, 213, 215, 217, 218, 220, 222, 224,
  226, 228, 230, 232, 233, 235, 237, 239, 241, 243, 245, 247, 249, 251, 253, 255]

/-- Read of `LogPot[i]` (in the firmware every read is in bounds, `i` a byte). -/
def logPotAt (i : Nat) : Nat := LogPot.getD i 0

/-- The `switch(mode)` in the output loops of `loop()`: the value handed to
`WritePotSPI` for a channel with taper `mode` and pedal value `expVal`;
`none` for the (unreachable) `default` case which writes nothing.
Taper encoding as in the source: 0 = lin, 1 = inv. lin, 2 = log, 3 = inv. log. -/
def taperMap (mode expVal : Nat) : Option Nat :=
  match mode with
  | 0 => some expVal
  | 1 => some (255 - expVal)
  | 2 => some (logPotAt expVal)
  | 3 => some (logPotAt (255 - expVal))
  | _ => none

/-- The firmware's global state (the mutable globals of the sketch).
Arrays `byte x[4]` / `x[4][4]` are modelled as functions out of `Nat`;
the firmware only ever stores meaningful data at indices 0..3. -/
@[ext] structure FwSt where
  PatchModeState : Nat → Nat → Nat
  PatchChnlState : Nat → Nat → Bool
  PatchActive : Nat
  ChnlState : Nat → Bool
  ChnlMode : Nat → Nat
  SelIndex : Nat
  SaveModeCounter : Nat
  SvMdCntrActive : Bool
  PatchMode : Bool
  SaveMode : Bool
  SelValChng : Bool
  LastSelVal : Nat
  NvmData : List Nat

/-- Inputs consumed by one pass of `loop()`: the two ADC-derived values and
the four button edge-latch flags as sampled by the interrupt. -/
structure PassIn where
  ExpVal : Nat
  SelVal : Nat
  Btn0Pressed : Bool
  Btn0Released : Bool
  Btn1Pressed : Bool
  Btn1Released : Bool

/-- Pointwise update of a `Nat`-indexed byte array. -/
def updN (f : Nat → Nat) (i v : Nat) : Nat → Nat :=
  fun k => if k = i then v else f k

/-- Pointwise update of a `Nat`-indexed bool array. -/
def updB (f : Nat → Bool) (i : Nat) (v : Bool) : Nat → Bool :=
  fun k => if k = i then v else f k

/-- `UpdateNvmData`, the encoding half: the 10-byte record built from the
state (the EEPROM write itself is external).  Bit packing as in the source:
byte 0 packs the four channel tapers 2 bits each, bytes `1+2i` the patch
enabled bits, bytes `2+2i` the patch tapers, byte 9 the operating mode. -/
def encodeNvm (s : FwSt) : List Nat :=
  [((s.ChnlMode 3 <<< 6) ||| (s.ChnlMode 2 <<< 4) ||| (s.ChnlMode 1 <<< 2) ||| s.ChnlMode 0) % 256,
   ((cond (s.PatchChnlState 0 0) 1 0 <<< 0) ||| (cond (s.PatchChnlState 0 1) 1 0 <<< 1) |||
    (cond (s.PatchChnlState 0 2) 1 0 <<< 2) ||| (cond (s.PatchChnlState 0 3) 1 0 <<< 3)) % 256,
   ((s.PatchModeState 0 0 <<< 0) ||| (s.PatchModeState 0 1 <<< 2) |||
    (s.PatchModeState 0 2 <<< 4) ||| (s.PatchModeState 0 3 <<< 6)) % 256,
   ((cond (s.PatchChnlState 1 0) 1 0 <<< 0) ||| (cond (s.PatchChnlState 1 1) 1 0 <<< 1) |||
    (cond (s.PatchChnlState 1 2) 1 0 <<< 2) ||| (cond (s.PatchChnlState 1 3) 1 0 <<< 3)) % 256,
   ((s.PatchModeState 1 0 <<< 0) ||| (s.PatchModeState 1 1 <<< 2) |||
    (s.PatchModeState 1 2 <<< 4) ||| (s.PatchModeState 1 3 <<< 6)) % 256,
   ((cond (s.PatchChnlState 2 0) 1 0 <<< 0) ||| (cond (s.PatchChnlState 2 1) 1 0 <<< 1) |||
    (cond (s.PatchChnlState 2 2) 1 0 <<< 2) ||| (cond (s.PatchChnlState 2 3) 1 0 <<< 3)) % 256,
   ((s.PatchModeState 2 0 <<< 0) ||| (s.PatchModeState 2 1 <<< 2) |||
    (s.PatchModeState 2 2 <<< 4) ||| (s.PatchModeState 2 3 <<< 6)) % 256,
   ((cond (s.PatchChnlState 3 0) 1 0 <<< 0) ||| (cond (s.PatchChnlState 3 1) 1 0 <<< 1) |||
    (cond (s.PatchChnlState 3 2) 1 0 <<< 2) ||| (cond (s.PatchChnlState 3 3) 1 0 <<< 3)) % 256,
   ((s.PatchModeState 3 0 <<< 0) ||| (s.PatchModeState 3 1 <<< 2) |||
    (s.PatchModeState 3 2 <<< 4) ||| (s.PatchModeState 3 3 <<< 6)) % 256,
   cond s.PatchMode 1 0]

/-- `UpdateNvmData` as a state transformer: refresh the `NvmData` buffer
(and the EEPROM, which mirrors it) from the current configuration. -/
def updateNvmData (s : FwSt) : FwSt :=
  { s with NvmData := encodeNvm s }

/-- `ReadNvmData`: load a 10-byte record into the `NvmData` buffer and decode
it into the configuration globals, exactly as the source does (2-bit masks for
tapers, 1-bit masks for enabled flags, C `bool` conversion for byte 9). -/
def readNvmData (bytes : List Nat) (s : FwSt) : FwSt :=
  { s with
    NvmData := bytes
    ChnlMode := fun i =>
      if i < 4 then (bytes.getD 0 0 >>> (i * 2)) &&& 3 else s.ChnlMode i
    PatchChnlState := fun i j =>
      if i < 4 ∧ j < 4 then ((bytes.getD (1 + i * 2) 0 >>> j) &&& 1) != 0
      else s.PatchChnlState i j
    PatchModeState := fun i j =>
      if i < 4 ∧ j < 4 then (bytes.getD (2 + i * 2) 0 >>> (j * 2)) &&& 3
      else s.PatchModeState i j
    PatchMode := (bytes.getD 9 0) != 0 }

/-- `CheckSelector`: compare the quantized selector reading with the previous
one and latch `SelValChng` on a change (the flag stays set until consumed). -/
def checkSelector (s : FwSt) (selVal : Nat) : FwSt :=
  { s with SelValChng := s.SelValChng || (selVal != s.LastSelVal), LastSelVal := selVal }

/-- Patch-mode arm of `loop()`: the three button gestures, the selector-change
patch selection, and the output loop guarded by `PatchActive < 5`.
Returns the new state and, per channel index, the value written by
`WritePotSPI` in this pass (`none` = no write). -/
def patchArm (s : FwSt) (p : PassIn) : FwSt × (Nat → Option Nat) :=
  let s1 :=
    if p.Btn0Pressed && p.Btn0Released && !p.Btn1Pressed && !p.Btn1Released then
      { s with PatchActive := if s.SelIndex = s.PatchActive then 255 else s.SelIndex }
    else if !p.Btn0Pressed && !p.Btn0Released && p.Btn1Pressed && p.Btn1Released then
      { s with SelIndex := if s.SelIndex + 1 > 3 then 0 else s.SelIndex + 1 }
    else if p.Btn0Pressed && !p.Btn0Released && p.Btn1Pressed && !p.Btn1Released then
      updateNvmData { s with PatchMode := false, SelIndex := 0 }
    else s
  let s2 :=
    if s1.SelValChng then { s1 with SelIndex := p.SelVal, SelValChng := false } else s1
  (s2, fun i =>
    if i < 4 then
      if s2.PatchActive < 5 then
        if s2.PatchChnlState s2.PatchActive i then
          taperMap (s2.PatchModeState s2.PatchActive i) p.ExpVal
        else none
      else none
    else none)

/-- Normal-mode arm of `loop()`: the four gesture branches, the selector-change
taper assignment (with persist), and the output loop over enabled channels. -/
def normalArm (s : FwSt) (p : PassIn) : FwSt × (Nat → Option Nat) :=
  let s1 :=
    if p.Btn0Pressed && p.Btn0Released && !p.Btn1Pressed && !p.Btn1Released then
      { s with ChnlState := updB s.ChnlState s.SelIndex (!s.ChnlState s.SelIndex),
               SvMdCntrActive := false, SaveModeCounter := 0 }
    else if !p.Btn0Pressed && !p.Btn0Released && p.Btn1Pressed && p.Btn1Released then
      { s with SelIndex := if s.SelIndex + 1 > 3 then 0 else s.SelIndex + 1,
               SvMdCntrActive := false, SaveModeCounter := 0 }
    else if p.Btn0Pressed && !p.Btn0Released && p.Btn1Pressed && !p.Btn1Released then
      updateNvmData { s with SvMdCntrActive := false, SaveModeCounter := 0,
                             SelIndex := 0, PatchMode := true }
    else if !p.Btn0Pressed && !p.Btn0Released && p.Btn1Pressed && !p.Btn1Released then
      if s.SaveModeCounter > 3 then
        updateNvmData { s with SvMdCntrActive := false, SaveModeCounter := 0,
                               SelIndex := 0, SaveMode := true }
      else { s with SvMdCntrActive := true }
    else s
  let s2 :=
    if s1.SelValChng then
      updateNvmData { s1 with ChnlMode := updN s1.ChnlMode s1.SelIndex p.SelVal,
                              SelValChng := false }
    else s1
  (s2, fun i =>
    if i < 4 then
      if s2.ChnlState i then taperMap (s2.ChnlMode i) p.ExpVal else none
    else none)

/-- Save-mode arm of `loop()`: the long-press commit branch, followed by the
unconditional selector tracking `SelIndex = SelVal`.  No output writes. -/
def saveArm (s : FwSt) (p : PassIn) : FwSt × (Nat → Option Nat) :=
  let s1 :=
    if p.Btn1Pressed && !p.Btn1Released then
      if s.SaveModeCounter > 3 then
        updateNvmData { s with
          SvMdCntrActive := false, SaveModeCounter := 0,
          PatchModeState := fun a b =>
            if a = s.SelIndex ∧ b < 4 then s.ChnlMode b else s.PatchModeState a b,
          PatchChnlState := fun a b =>
            if a = s.SelIndex ∧ b < 4 then s.ChnlState b else s.PatchChnlState a b,
          SelIndex := 0, SelValChng := false, SaveMode := false }
      else { s with SvMdCntrActive := true }
    else s
  ({ s1 with SelIndex := p.SelVal, SelValChng := false }, fun _ => none)

/-- One pass of `loop()`: selector sampling, then dispatch on the operating
mode exactly as the source's `if(PatchMode) / else if(!PatchMode && !SaveMode)
/ else` chain. -/
def loopStep (s : FwSt) (p : PassIn) : FwSt × (Nat → Option Nat) :=
  let s0 := checkSelector s p.SelVal
  if s0.PatchMode then patchArm s0 p
  else if !s0.PatchMode && !s0.SaveMode then normalArm s0 p
  else saveArm s0 p

/-- `CheckSaveMode`, run on the 500 ms tick: increment the long-press counter
(a byte) while the counter is armed. -/
def checkSaveModeTick (s : FwSt) : FwSt :=
  if s.SvMdCntrActive then { s with SaveModeCounter := (s.SaveModeCounter + 1) % 256 }
  else s

/-- `CheckLeds` with every 4-element array access bounds-checked: returns the
`(ChnlLedState, ModeLedState)` vectors the routine computes, or `none` when
one of its array indices falls outside 0..3 (in C that access is out of
bounds).  In the Patch branch the routine reads
`PatchChnlState[PatchActive][i]`; in the Normal branch it reads
`ChnlState[SelIndex]`-adjacent data and writes `ModeLedState[ChnlMode[SelIndex]]`. -/
def checkLedsChk (s : FwSt) : Option ((Nat → Nat) × (Nat → Nat)) :=
  if s.PatchMode then
    if s.PatchActive < 4 then
      some (fun i => if i < 4 then cond (s.PatchChnlState s.PatchActive i) 1 0 else 0,
            fun i => if i < 4 then
                (if s.SelIndex ≠ s.PatchActive ∧ s.PatchActive = i then 1
                 else if s.SelIndex ≠ i ∧ s.PatchActive ≠ i then 0
                 else if s.SelIndex = i ∧ s.PatchActive = i then 3
                 else 2)
              else 0)
    else none
  else if !s.SaveMode then
    if s.SelIndex < 4 ∧ s.ChnlMode s.SelIndex < 4 then
      some (fun i => if i < 4 then
                (if s.SelIndex ≠ i ∧ s.ChnlState i then 1
                 else if s.SelIndex ≠ i ∧ s.ChnlState i = false then 0
                 else if s.SelIndex = i ∧ s.ChnlState i then 3
                 else 2)
              else 0,
            fun i => if i = s.ChnlMode s.SelIndex then 1 else 0)
    else none
  else
    some (fun i => if i < 4 then cond (s.ChnlState i) 1 0 else 0,
          fun i => if i < 4 then (if s.SelIndex = i then 3 else 0) else 0)

/-- The global initializers of the sketch (the state right after reset,
before `setup()` loads the EEPROM): everything off, no active patch
(`PatchActive = 255`), Normal mode. -/
def initSt : FwSt where
  PatchModeState := fun _ _ => 0
  PatchChnlState := fun _ _ => false
  PatchActive := 255
  ChnlState := fun _ => false
  ChnlMode := fun _ => 0
  SelIndex := 0
  SaveModeCounter := 0
  SvMdCntrActive := false
  PatchMode := false
  SaveMode := false
  SelValChng := false
  LastSelVal := 0
  NvmData := List.replicate 10 0

/-- Concrete configuration used as witness input: patch mode, one nontrivial
taper and one enabled patch flag set. -/
def wSt2a : FwSt where
  PatchModeState := fun i j => if i = 0 ∧ j = 1 then 3 else 2
  PatchChnlState := fun i j => if i = 1 ∧ j = 2 then true else false
  PatchActive := 255
  ChnlState := fun _ => false
  ChnlMode := fun i => if i = 0 then 1 else 0
  SelIndex := 0
  SaveModeCounter := 0
  SvMdCntrActive := false
  PatchMode := true
  SaveMode := false
  SelValChng := false
  LastSelVal := 0
  NvmData := []

/-- The witness configuration with its `NvmData` buffer freshly persisted. -/
def wSt2 : FwSt := updateNvmData wSt2a

/-- Concrete Normal-mode state for the C1 witness: channel 0 enabled with the
Linear taper. -/
def c1St : FwSt :=
  { initSt with ChnlState := fun i => if i = 0 then true else false }

/-- Concrete Patch-mode state for the C5 counterexample: patch 2 active,
selection on 1, selector previously read 0 (so reading 3 is a change). -/
def c5St : FwSt :=
  { initSt with PatchMode := true, PatchActive := 2, SelIndex := 1, LastSelVal := 0 }

/-- Concrete Save-mode state for the C6 counterexample: long-press counter at
2 and armed, select button just released (both latch flags set). -/
def c6St : FwSt :=
  { initSt with SaveMode := true, SaveModeCounter := 2, SvMdCntrActive := true }

/-- Concrete Save-mode state for the C7 commit evaluation: channels
0 on/Linear, 1 off, 2 on/Log, 3 off; save slot 2 selected via the selector;
long-press counter past the threshold. -/
def c7St : FwSt :=
  { initSt with
    SaveMode := true, SaveModeCounter := 4, SelIndex := 2, LastSelVal := 2,
    ChnlState := fun i => if i = 0 ∨ i = 2 then true else false,
    ChnlMode := fun i => if i = 2 then 2 else 0 }

/- ------------------------------------------------------------------ -/
/- Helper lemmas on the bit packing and on the lookup table. -/
/- ------------------------------------------------------------------ -/

theorem loopStep_patch_out (s : FwSt) (p : PassIn) (hpm : s.PatchMode = true) (i : Nat) :
    (loopStep s p).2 i =
      (if i < 4 then
        if (loopStep s p).1.PatchActive < 5 then
          if (loopStep s p).1.PatchChnlState (loopStep s p).1.PatchActive i then
            taperMap ((loopStep s p).1.PatchModeState (loopStep s p).1.PatchActive i) p.ExpVal
          else none
        else none
      else none) := by
  simp only [loopStep, checkSelector, patchArm, hpm]
  norm_num

theorem pack2_fin : ∀ (a b c d : Fin 4),
    (((((d.val <<< 6) ||| (c.val <<< 4) ||| (b.val <<< 2) ||| a.val) % 256) >>> (0 * 2)) &&& 3 = a.val) ∧
    (((((d.val <<< 6) ||| (c.val <<< 4) ||| (b.val <<< 2) ||| a.val) % 256) >>> (1 * 2)) &&& 3 = b.val) ∧
    (((((d.val <<< 6) ||| (c.val <<< 4) ||| (b.val <<< 2) ||| a.val) % 256) >>> (2 * 2)) &&& 3 = c.val) ∧
    (((((d.val <<< 6) ||| (c.val <<< 4) ||| (b.val <<< 2) ||| a.val) % 256) >>> (3 * 2)) &&& 3 = d.val) := by
  decide

theorem pack2r_fin : ∀ (a b c d : Fin 4),
    (((((a.val <<< 0) ||| (b.val <<< 2) ||| (c.val <<< 4) ||| (d.val <<< 6)) % 256) >>> (0 * 2)) &&& 3 = a.val) ∧
    (((((a.val <<< 0) ||| (b.val <<< 2) ||| (c.val <<< 4) ||| (d.val <<< 6)) % 256) >>> (1 * 2)) &&& 3 = b.val) ∧
    (((((a.val <<< 0) ||| (b.val <<< 2) ||| (c.val <<< 4) ||| (d.val <<< 6)) % 256) >>> (2 * 2)) &&& 3 = c.val) ∧
    (((((a.val <<< 0) ||| (b.val <<< 2) ||| (c.val <<< 4) ||| (d.val <<< 6)) % 256) >>> (3 * 2)) &&& 3 = d.val) := by
  decide

theorem packbits_fin : ∀ (a b c d : Bool),
    (((((cond a 1 0 <<< 0) ||| (cond b 1 0 <<< 1) ||| (cond c 1 0 <<< 2) ||| (cond d 1 0 <<< 3)) % 256) >>> 0) &&& 1 != 0) = a ∧
    (((((cond a 1 0 <<< 0) ||| (cond b 1 0 <<< 1) ||| (cond c 1 0 <<< 2) ||| (cond d 1 0 <<< 3)) % 256) >>> 1) &&& 1 != 0) = b ∧
    (((((cond a 1 0 <<< 0) ||| (cond b 1 0 <<< 1) ||| (cond c 1 0 <<< 2) ||| (cond d 1 0 <<< 3)) % 256) >>> 2) &&& 1 != 0) = c ∧
    (((((cond a 1 0 <<< 0) ||| (cond b 1 0 <<< 1) ||| (cond c 1 0 <<< 2) ||| (cond d 1 0 <<< 3)) % 256) >>> 3) &&& 1 != 0) = d := by
  decide

theorem packbits_cond_fin : ∀ (a b c d : Bool),
    ((((cond a 1 0 <<< 0) ||| (cond b 1 0 <<< 1) ||| (cond c 1 0 <<< 2) ||| (cond d 1 0 <<< 3)) % 256) >>> 0) &&& 1 = cond a 1 0 ∧
    ((((cond a 1 0 <<< 0) ||| (cond b 1 0 <<< 1) ||| (cond c 1 0 <<< 2) ||| (cond d 1 0 <<< 3)) % 256) >>> 1) &&& 1 = cond b 1 0 ∧
    ((((cond a 1 0 <<< 0) ||| (cond b 1 0 <<< 1) ||| (cond c 1 0 <<< 2) ||| (cond d 1 0 <<< 3)) % 256) >>> 2) &&& 1 = cond c 1 0 ∧
    ((((cond a 1 0 <<< 0) ||| (cond b 1 0 <<< 1) ||| (cond c 1 0 <<< 2) ||| (cond d 1 0 <<< 3)) % 256) >>> 3) &&& 1 = cond d 1 0 := by
  decide

theorem unpack2 (a b c d : Nat) (ha : a < 4) (hb : b < 4) (hc : c < 4) (hd : d < 4) :
    ((((d <<< 6) ||| (c <<< 4) ||| (b <<< 2) ||| a) % 256) >>> (0 * 2)) &&& 3 = a ∧
    ((((d <<< 6) ||| (c <<< 4) ||| (b <<< 2) ||| a) % 256) >>> (1 * 2)) &&& 3 = b ∧
    ((((d <<< 6) ||| (c <<< 4) ||| (b <<< 2) ||| a) % 256) >>> (2 * 2)) &&& 3 = c ∧
    ((((d <<< 6) ||| (c <<< 4) ||| (b <<< 2) ||| a) % 256) >>> (3 * 2)) &&& 3 = d :=
  pack2_fin ⟨a, ha⟩ ⟨b, hb⟩ ⟨c, hc⟩ ⟨d, hd⟩

theorem unpack2r (a b c d : Nat) (ha : a < 4) (hb : b < 4) (hc : c < 4) (hd : d < 4) :
    ((((a <<< 0) ||| (b <<< 2) ||| (c <<< 4) ||| (d <<< 6)) % 256) >>> (0 * 2)) &&& 3 = a ∧
    ((((a <<< 0) ||| (b <<< 2) ||| (c <<< 4) ||| (d <<< 6)) % 256) >>> (1 * 2)) &&& 3 = b ∧
    ((((a <<< 0) ||| (b <<< 2) ||| (c <<< 4) ||| (d <<< 6)) % 256) >>> (2 * 2)) &&& 3 = c ∧
    ((((a <<< 0) ||| (b <<< 2) ||| (c <<< 4) ||| (d <<< 6)) % 256) >>> (3 * 2)) &&& 3 = d :=
  pack2r_fin ⟨a, ha⟩ ⟨b, hb⟩ ⟨c, hc⟩ ⟨d, hd⟩

set_option maxRecDepth 2000 in
theorem logPot_step : ∀ i : Fin 255, logPotAt i.val ≤ logPotAt (i.val + 1) := by decide

theorem logPot_mono_aux : ∀ k i, i + k ≤ 255 → logPotAt i ≤ logPotAt (i + k) := by
  intro k
  induction k with
  | zero => intro i _; exact Nat.le_refl _
  | succ n ih =>
    intro i h
    have h2 : i + n < 255 := by omega
    calc logPotAt i ≤ logPotAt (i + n) := ih i (by omega)
      _ ≤ logPotAt (i + n + 1) := logPot_step ⟨i + n, h2⟩
      _ = logPotAt (i + (n + 1)) := by ring_nf

theorem logPot_mono (i j : Nat) (hij : i ≤ j) (hj : j ≤ 255) : logPotAt i ≤ logPotAt j := by
  have h := logPot_mono_aux (j - i) i (by omega)
  have he : i + (j - i) = j := by omega
  rwa [he] at h

/- ------------------------------------------------------------------ -/
/- Claims about the persistence codec and the taper mapper. -/
/- ------------------------------------------------------------------ -/

/-- C2: for every valid configuration state (all channel and patch tapers in
0..3, patch enabled flags boolean, operating mode Normal or Patch, `NvmData`
buffer in sync as after any persist), decoding the 10-byte record produced by
encoding the state yields the state back. -/
theorem C2_decode_encode_id (s : FwSt)
    (hm : ∀ i, i < 4 → s.ChnlMode i < 4)
    (hpm : ∀ i j, i < 4 → j < 4 → s.PatchModeState i j < 4)
    (hnvm : s.NvmData = encodeNvm s) :
    readNvmData (encodeNvm s) s = s := by
  ext x y
  case PatchModeState =>
    show (if x < 4 ∧ y < 4 then ((encodeNvm s).getD (2 + x * 2) 0 >>> (y * 2)) &&& 3
          else s.PatchModeState x y) = s.PatchModeState x y
    by_cases h : x < 4 ∧ y < 4
    · obtain ⟨hx, hy⟩ := h
      have hbyte : (encodeNvm s).getD (2 + x * 2) 0 =
          ((s.PatchModeState x 0 <<< 0) ||| (s.PatchModeState x 1 <<< 2) |||
           (s.PatchModeState x 2 <<< 4) ||| (s.PatchModeState x 3 <<< 6)) % 256 := by
        interval_cases x <;> rfl
      have hu := unpack2r (s.PatchModeState x 0) (s.PatchModeState x 1)
          (s.PatchModeState x 2) (s.PatchModeState x 3)
          (hpm x 0 hx (by decide)) (hpm x 1 hx (by decide))
          (hpm x 2 hx (by decide)) (hpm x 3 hx (by decide))
      rw [if_pos ⟨hx, hy⟩, hbyte]
      interval_cases y
      · exact hu.1
      · exact hu.2.1
      · exact hu.2.2.1
      · exact hu.2.2.2
    · simp [h]
  case PatchChnlState =>
    show (if x < 4 ∧ y < 4 then ((encodeNvm s).getD (1 + x * 2) 0 >>> y) &&& 1 != 0
          else s.PatchChnlState x y) = s.PatchChnlState x y
    by_cases h : x < 4 ∧ y < 4
    · obtain ⟨hx, hy⟩ := h
      have hbyte : (encodeNvm s).getD (1 + x * 2) 0 =
          ((cond (s.PatchChnlState x 0) 1 0 <<< 0) ||| (cond (s.PatchChnlState x 1) 1 0 <<< 1) |||
           (cond (s.PatchChnlState x 2) 1 0 <<< 2) ||| (cond (s.PatchChnlState x 3) 1 0 <<< 3)) % 256 := by
        interval_cases x <;> rfl
      have hu := packbits_fin (s.PatchChnlState x 0) (s.PatchChnlState x 1)
          (s.PatchChnlState x 2) (s.PatchChnlState x 3)
      rw [if_pos ⟨hx, hy⟩, hbyte]
      interval_cases y
      · exact hu.1
      · exact hu.2.1
      · exact hu.2.2.1
      · exact hu.2.2.2
    · simp [h]
  case ChnlMode =>
    show (if x < 4 then ((encodeNvm s).getD 0 0 >>> (x * 2)) &&& 3 else s.ChnlMode x)
          = s.ChnlMode x
    by_cases hx : x < 4
    · have hbyte : (encodeNvm s).getD 0 0 =
          ((s.ChnlMode 3 <<< 6) ||| (s.ChnlMode 2 <<< 4) |||
           (s.ChnlMode 1 <<< 2) ||| s.ChnlMode 0) % 256 := rfl
      have hu := unpack2 (s.ChnlMode 0) (s.ChnlMode 1) (s.ChnlMode 2) (s.ChnlMode 3)
          (hm 0 (by decide)) (hm 1 (by decide)) (hm 2 (by decide)) (hm 3 (by decide))
      rw [if_pos hx, hbyte]
      interval_cases x
      · exact hu.1
      · exact hu.2.1
      · exact hu.2.2.1
      · exact hu.2.2.2
    · simp [hx]
  case PatchActive => rfl
  case ChnlState => rfl
  case SelIndex => rfl
  case SaveModeCounter => rfl
  case SvMdCntrActive => rfl
  case PatchMode =>
    show ((encodeNvm s).getD 9 0 != 0) = s.PatchMode
    cases hp : s.PatchMode <;> simp [encodeNvm, hp]
  case SaveMode => rfl
  case SelValChng => rfl
  case LastSelVal => rfl
  case NvmData =>
    show y ∈ (encodeNvm s)[x]? ↔ y ∈ s.NvmData[x]?
    rw [hnvm]

/-- C2 witness: the round trip evaluated at the concrete configuration
`wSt2`. -/
theorem C2_witness : readNvmData (encodeNvm wSt2) wSt2 = wSt2 := by
  apply C2_decode_encode_id
  · intro i _
    show (if i = 0 then 1 else 0) < 4
    split <;> decide
  · intro i j _ _
    show (if i = 0 ∧ j = 1 then 3 else 2) < 4
    split <;> decide
  · rfl

/-- C3: the encoder produces exactly the fixed 10-byte layout: byte 0 holds
the four channel tapers at 2 bits each (channel 0 in bits 1:0 up to channel 3
in bits 7:6); for each patch i, byte `1+2i` holds `enabled[j]` in bit
position j and byte `2+2i` holds that patch's four tapers at 2 bits each
(channel 0 in bits 1:0); byte 9 is 0 when the mode is not Patch and nonzero
(namely 1) when it is Patch; and Save is never encoded as the persisted mode
(the record does not depend on the `SaveMode` flag). -/
theorem C3_record_layout (s : FwSt)
    (hm : ∀ i, i < 4 → s.ChnlMode i < 4)
    (hpm : ∀ i j, i < 4 → j < 4 → s.PatchModeState i j < 4) :
    (∀ i, i < 4 → ((encodeNvm s).getD 0 0 >>> (i * 2)) &&& 3 = s.ChnlMode i) ∧
    (∀ i j, i < 4 → j < 4 →
      ((encodeNvm s).getD (1 + 2 * i) 0 >>> j) &&& 1 = cond (s.PatchChnlState i j) 1 0) ∧
    (∀ i j, i < 4 → j < 4 →
      ((encodeNvm s).getD (2 + 2 * i) 0 >>> (j * 2)) &&& 3 = s.PatchModeState i j) ∧
    ((encodeNvm s).getD 9 0 = cond s.PatchMode 1 0) ∧
    (∀ b, encodeNvm { s with SaveMode := b } = encodeNvm s) := by
  refine ⟨?_, ?_, ?_, rfl, fun b => rfl⟩
  · intro i hi
    have hu := unpack2 (s.ChnlMode 0) (s.ChnlMode 1) (s.ChnlMode 2) (s.ChnlMode 3)
        (hm 0 (by decide)) (hm 1 (by decide)) (hm 2 (by decide)) (hm 3 (by decide))
    have hbyte : (encodeNvm s).getD 0 0 =
        ((s.ChnlMode 3 <<< 6) ||| (s.ChnlMode 2 <<< 4) |||
         (s.ChnlMode 1 <<< 2) ||| s.ChnlMode 0) % 256 := rfl
    rw [hbyte]
    interval_cases i
    · exact hu.1
    · exact hu.2.1
    · exact hu.2.2.1
    · exact hu.2.2.2
  · intro i j hi hj
    have hbyte : (encodeNvm s).getD (1 + 2 * i) 0 =
        ((cond (s.PatchChnlState i 0) 1 0 <<< 0) ||| (cond (s.PatchChnlState i 1) 1 0 <<< 1) |||
         (cond (s.PatchChnlState i 2) 1 0 <<< 2) ||| (cond (s.PatchChnlState i 3) 1 0 <<< 3)) % 256 := by
      interval_cases i <;> rfl
    have hu := packbits_cond_fin (s.PatchChnlState i 0) (s.PatchChnlState i 1)
        (s.PatchChnlState i 2) (s.PatchChnlState i 3)
    rw [hbyte]
    interval_cases j
    · exact hu.1
    · exact hu.2.1
    · exact hu.2.2.1
    · exact hu.2.2.2
  · intro i j hi hj
    have hbyte : (encodeNvm s).getD (2 + 2 * i) 0 =
        ((s.PatchModeState i 0 <<< 0) ||| (s.PatchModeState i 1 <<< 2) |||
         (s.PatchModeState i 2 <<< 4) ||| (s.PatchModeState i 3 <<< 6)) % 256 := by
      interval_cases i <;> rfl
    have hu := unpack2r (s.PatchModeState i 0) (s.PatchModeState i 1)
        (s.PatchModeState i 2) (s.PatchModeState i 3)
        (hpm i 0 hi (by decide)) (hpm i 1 hi (by decide))
        (hpm i 2 hi (by decide)) (hpm i 3 hi (by decide))
    rw [hbyte]
    interval_cases j
    · exact hu.1
    · exact hu.2.1
    · exact hu.2.2.1
    · exact hu.2.2.2

/-- C3 witness: the layout equations at the concrete configuration `wSt2`. -/
theorem C3_witness :
    ((encodeNvm wSt2).getD 0 0 >>> (0 * 2)) &&& 3 = wSt2.ChnlMode 0 ∧
    ((encodeNvm wSt2).getD (1 + 2 * 1) 0 >>> 2) &&& 1 = cond (wSt2.PatchChnlState 1 2) 1 0 ∧
    ((encodeNvm wSt2).getD (2 + 2 * 0) 0 >>> (1 * 2)) &&& 3 = wSt2.PatchModeState 0 1 ∧
    (encodeNvm wSt2).getD 9 0 = cond wSt2.PatchMode 1 0 := by
  have hm : ∀ i, i < 4 → wSt2.ChnlMode i < 4 := by
    intro i _
    show (if i = 0 then 1 else 0) < 4
    split <;> decide
  have hpm : ∀ i j, i < 4 → j < 4 → wSt2.PatchModeState i j < 4 := by
    intro i j _ _
    show (if i = 0 ∧ j = 1 then 3 else 2) < 4
    split <;> decide
  have h := C3_record_layout wSt2 hm hpm
  exact ⟨h.1 0 (by decide), h.2.1 1 2 (by decide) (by decide),
         h.2.2.1 0 1 (by decide) (by decide), h.2.2.2.1⟩

/-- C8: the taper mapper satisfies `map(raw, Linear) = raw`,
`map(raw, InvLinear) = 255 - map(raw, Linear)` and
`map(raw, InvLog) = map(255 - raw, Log)` for every raw value, and the Log
lookup table is non-decreasing over 0..255 with `L[0] = 0` and
`L[255] = 255`. -/
theorem C8_taper_relations :
    (∀ raw, taperMap 0 raw = some raw) ∧
    (∀ raw, taperMap 1 raw = Option.map (fun v => 255 - v) (taperMap 0 raw)) ∧
    (∀ raw, taperMap 3 raw = taperMap 2 (255 - raw)) ∧
    (∀ i j, i ≤ j → j ≤ 255 → logPotAt i ≤ logPotAt j) ∧
    logPotAt 0 = 0 ∧ logPotAt 255 = 255 :=
  ⟨fun _ => rfl, fun _ => rfl, fun _ => rfl, logPot_mono, by decide, by decide⟩

/-- C8 witness: the monotonicity part applied at concrete indices. -/
theorem C8_witness : logPotAt 10 ≤ logPotAt 200 :=
  C8_taper_relations.2.2.2.1 10 200 (by decide) (by decide)

/-- C10: for every possible stored record (any byte list, including corrupted
or never-initialized contents), the startup decode yields only in-range
values: every channel taper and every patch taper is in 0..3, every patch
enabled flag is the single extracted bit, and the operating mode is Patch
exactly when byte 9 is nonzero (Normal when it is zero). -/
theorem C10_decode_total (bytes : List Nat) (s : FwSt) :
    (∀ i, i < 4 → (readNvmData bytes s).ChnlMode i < 4) ∧
    (∀ i j, i < 4 → j < 4 → (readNvmData bytes s).PatchModeState i j < 4) ∧
    (∀ i j, i < 4 → j < 4 →
      (readNvmData bytes s).PatchChnlState i j
        = (((bytes.getD (1 + i * 2) 0 >>> j) &&& 1) != 0)) ∧
    ((readNvmData bytes s).PatchMode = true ↔ bytes.getD 9 0 ≠ 0) := by
  refine ⟨?_, ?_, ?_, ?_⟩
  · intro i hi
    show (if i < 4 then (bytes.getD 0 0 >>> (i * 2)) &&& 3 else s.ChnlMode i) < 4
    rw [if_pos hi]
    exact Nat.lt_succ_of_le Nat.and_le_right
  · intro i j hi hj
    show (if i < 4 ∧ j < 4 then (bytes.getD (2 + i * 2) 0 >>> (j * 2)) &&& 3
          else s.PatchModeState i j) < 4
    rw [if_pos ⟨hi, hj⟩]
    exact Nat.lt_succ_of_le Nat.and_le_right
  · intro i j hi hj
    show (if i < 4 ∧ j < 4 then ((bytes.getD (1 + i * 2) 0 >>> j) &&& 1) != 0
          else s.PatchChnlState i j) = _
    rw [if_pos ⟨hi, hj⟩]
  · show ((bytes.getD 9 0 != 0) = true ↔ bytes.getD 9 0 ≠ 0)
    simp [bne_iff_ne]

/-- C10 witness: decoding an all-ones (0xFF) record from uninitialized EEPROM
still yields in-range tapers and Patch mode. -/
theorem C10_witness :
    (readNvmData (List.replicate 10 255) initSt).ChnlMode 0 < 4 ∧
    (readNvmData (List.replicate 10 255) initSt).PatchModeState 3 3 < 4 ∧
    ((readNvmData (List.replicate 10 255) initSt).PatchMode = true ↔
      (List.replicate 10 255).getD 9 0 ≠ 0) := by
  have h := C10_decode_total (List.replicate 10 255) initSt
  exact ⟨h.1 0 (by decide), h.2.1 3 3 (by decide) (by decide), h.2.2.2⟩

/-- C1: on a Normal-mode pass, each channel i with enabled flag true receives
exactly `taperMap (taper i) inputValue` and disabled channels receive nothing;
on a Patch-mode pass the same holds with the active patch's (enabled, taper)
pairs; and when no patch is active (sentinel 255) no output value is written
at all. -/
theorem C1_output_production (s : FwSt) (p : PassIn) :
    (s.PatchMode = false → s.SaveMode = false →
      ∀ i, i < 4 →
        (loopStep s p).2 i =
          (if (loopStep s p).1.ChnlState i then
            taperMap ((loopStep s p).1.ChnlMode i) p.ExpVal
          else none)) ∧
    (s.PatchMode = true →
      ((loopStep s p).1.PatchActive = 255 → ∀ i, (loopStep s p).2 i = none) ∧
      ((loopStep s p).1.PatchActive < 4 → ∀ i, i < 4 →
        (loopStep s p).2 i =
          (if (loopStep s p).1.PatchChnlState (loopStep s p).1.PatchActive i then
            taperMap ((loopStep s p).1.PatchModeState (loopStep s p).1.PatchActive i) p.ExpVal
          else none))) := by
  refine ⟨?_, fun hpm => ⟨?_, ?_⟩⟩
  · intro hpm hsm i hi
    simp [loopStep, checkSelector, normalArm, hpm, hsm, hi]
  · intro h255 i
    rw [loopStep_patch_out s p hpm i, h255]
    simp
  · intro hlt i hi
    rw [loopStep_patch_out s p hpm i, if_pos hi,
      if_pos (show (loopStep s p).1.PatchActive < 5 by omega)]

/-- C1 witness: Normal mode, channel 0 enabled with Linear taper, signal 100:
the value written to output channel 0 is 100. -/
theorem C1_witness :
    (loopStep c1St ⟨100, 0, false, false, false, false⟩).2 0 = some 100 := by
  have h := (C1_output_production c1St ⟨100, 0, false, false, false, false⟩).1
    rfl rfl 0 (by decide)
  exact h.trans rfl

/-- C4: the active-patch pointer holds a single index (at most one patch is
active in any state), and in Patch mode the On/Off gesture deactivates the
active patch when the selection is on its index (pointer to the sentinel 255)
and otherwise activates the patch at the selection index, implicitly
deactivating the previous one. -/
theorem C4_single_active_patch :
    (∀ (s : FwSt) (k m : Nat), s.PatchActive = k → s.PatchActive = m → k = m) ∧
    (∀ (s : FwSt) (e v : Nat), s.PatchMode = true →
      ((s.SelIndex = s.PatchActive →
        (loopStep s ⟨e, v, true, true, false, false⟩).1.PatchActive = 255) ∧
       (s.SelIndex ≠ s.PatchActive →
        (loopStep s ⟨e, v, true, true, false, false⟩).1.PatchActive = s.SelIndex))) := by
  constructor
  · intro s k m hk hm; omega
  · intro s e v hpm
    constructor <;> intro hsel <;>
      simp [loopStep, checkSelector, patchArm, hpm, hsel, apply_ite FwSt.PatchActive]

/-- C4 witness: in `wSt2` (Patch mode, no active patch, selection 0) the
On/Off gesture activates patch 0. -/
theorem C4_witness :
    (loopStep wSt2 ⟨100, 0, true, true, false, false⟩).1.PatchActive = 0 := by
  have h := (C4_single_active_patch.2 wSt2 100 0 rfl).2 (by decide)
  exact h

/-- C5 counterexample to the claim as stated: in Patch mode with the selector
reading changed in the same pass (reading 3, previously 0), the combined press
leaves Normal mode with Selection Index 3, not 0. -/
theorem C5_counterexample :
    (loopStep c5St ⟨0, 3, true, false, true, false⟩).1.PatchMode = false ∧
    ¬ (loopStep c5St ⟨0, 3, true, false, true, false⟩).1.SelIndex = 0 := by
  refine ⟨rfl, by decide⟩

/-- C5 (amended): a combined press toggles Normal to Patch and Patch to
Normal unconditionally and persists the record; the Selection Index is reset
to 0, except that in the Patch-to-Normal pass a simultaneous selector-reading
change overrides the reset with the new reading; a Patch-mode pass never
changes the Save flag, a Save-mode pass never enters Patch mode, and the mode
flags change only through the combined-press and long-press gestures. -/
theorem C5_mode_transitions :
    (∀ (s : FwSt) (e v : Nat), s.PatchMode = false → s.SaveMode = false →
      (loopStep s ⟨e, v, true, false, true, false⟩).1.PatchMode = true ∧
      (loopStep s ⟨e, v, true, false, true, false⟩).1.SaveMode = false ∧
      (loopStep s ⟨e, v, true, false, true, false⟩).1.SelIndex = 0 ∧
      (loopStep s ⟨e, v, true, false, true, false⟩).1.NvmData =
        encodeNvm (loopStep s ⟨e, v, true, false, true, false⟩).1) ∧
    (∀ (s : FwSt) (e v : Nat), s.PatchMode = true →
      (loopStep s ⟨e, v, true, false, true, false⟩).1.PatchMode = false ∧
      (loopStep s ⟨e, v, true, false, true, false⟩).1.SaveMode = s.SaveMode ∧
      (loopStep s ⟨e, v, true, false, true, false⟩).1.SelIndex =
        (if s.SelValChng || (v != s.LastSelVal) then v else 0) ∧
      (loopStep s ⟨e, v, true, false, true, false⟩).1.NvmData =
        encodeNvm (loopStep s ⟨e, v, true, false, true, false⟩).1) ∧
    (∀ (s : FwSt) (p : PassIn), s.PatchMode = true →
      (loopStep s p).1.SaveMode = s.SaveMode) ∧
    (∀ (s : FwSt) (p : PassIn), s.PatchMode = false → s.SaveMode = true →
      (loopStep s p).1.PatchMode = false) ∧
    (∀ (s : FwSt) (p : PassIn), s.PatchMode = false → s.SaveMode = false →
      ((loopStep s p).1.PatchMode = true →
        p.Btn0Pressed = true ∧ p.Btn0Released = false ∧
        p.Btn1Pressed = true ∧ p.Btn1Released = false) ∧
      ((loopStep s p).1.SaveMode = true →
        p.Btn0Pressed = false ∧ p.Btn0Released = false ∧
        p.Btn1Pressed = true ∧ p.Btn1Released = false ∧ s.SaveModeCounter > 3)) ∧
    (∀ (s : FwSt) (p : PassIn), s.PatchMode = true →
      ((loopStep s p).1.PatchMode = false →
        p.Btn0Pressed = true ∧ p.Btn0Released = false ∧
        p.Btn1Pressed = true ∧ p.Btn1Released = false)) ∧
    (∀ (s : FwSt) (p : PassIn), s.PatchMode = false → s.SaveMode = true →
      ((loopStep s p).1.SaveMode = false →
        p.Btn1Pressed = true ∧ p.Btn1Released = false ∧ s.SaveModeCounter > 3)) := by
  refine ⟨?_, ?_, ?_, ?_, ?_, ?_, ?_⟩
  · intro s e v hpm hsm
    refine ⟨?_, ?_, ?_, ?_⟩ <;>
      simp only [loopStep, checkSelector, normalArm, hpm, hsm] <;>
      norm_num <;>
      split <;>
      simp_all [updateNvmData, encodeNvm, updN]
  · intro s e v hpm
    refine ⟨?_, ?_, ?_, ?_⟩ <;>
      simp only [loopStep, checkSelector, patchArm, hpm] <;>
      norm_num <;>
      split <;>
      simp_all [updateNvmData, encodeNvm, updN]
  · intro s p hpm
    rcases p with ⟨e, v, b0p, b0r, b1p, b1r⟩
    cases b0p <;> cases b0r <;> cases b1p <;> cases b1r <;>
      simp [loopStep, checkSelector, patchArm, updateNvmData, hpm,
        apply_ite FwSt.SaveMode]
  · intro s p hpm hsm
    rcases p with ⟨e, v, b0p, b0r, b1p, b1r⟩
    cases b0p <;> cases b0r <;> cases b1p <;> cases b1r <;>
      simp [loopStep, checkSelector, saveArm, updateNvmData, hpm, hsm,
        apply_ite FwSt.PatchMode]
  · intro s p hpm hsm
    rcases p with ⟨e, v, b0p, b0r, b1p, b1r⟩
    cases b0p <;> cases b0r <;> cases b1p <;> cases b1r <;>
      constructor <;>
      simp [loopStep, checkSelector, normalArm, updateNvmData, updN, hpm, hsm,
        apply_ite FwSt.PatchMode, apply_ite FwSt.SaveMode]
  · intro s p hpm
    rcases p with ⟨e, v, b0p, b0r, b1p, b1r⟩
    cases b0p <;> cases b0r <;> cases b1p <;> cases b1r <;>
      simp [loopStep, checkSelector, patchArm, updateNvmData, hpm,
        apply_ite FwSt.PatchMode]
  · intro s p hpm hsm
    rcases p with ⟨e, v, b0p, b0r, b1p, b1r⟩
    cases b0p <;> cases b0r <;> cases b1p <;> cases b1r <;>
      simp [loopStep, checkSelector, saveArm, updateNvmData, hpm, hsm,
        apply_ite FwSt.SaveMode]

/-- C5 witness: a combined press from the reset state enters Patch mode with
Selection Index 0. -/
theorem C5_witness :
    (loopStep initSt ⟨0, 0, true, false, true, false⟩).1.PatchMode = true ∧
    (loopStep initSt ⟨0, 0, true, false, true, false⟩).1.SelIndex = 0 :=
  ⟨(C5_mode_transitions.1 initSt 0 0 rfl rfl).1,
   (C5_mode_transitions.1 initSt 0 0 rfl rfl).2.2.1⟩

/-- C6 counterexample to the claim as stated: in Save mode, after releasing
the select button before the threshold (counter at 2), the pass does NOT
reset the long-press counter to 0; the counter stays at 2 and remains
armed. -/
theorem C6_counterexample :
    (loopStep c6St ⟨0, 0, false, false, true, true⟩).1.SaveModeCounter = 2 ∧
    ¬ (loopStep c6St ⟨0, 0, false, false, true, true⟩).1.SaveModeCounter = 0 ∧
    (loopStep c6St ⟨0, 0, false, false, true, true⟩).1.SvMdCntrActive = true := by
  refine ⟨rfl, by decide, rfl⟩

/-- C6 (amended): the long-press action fires only when the 500 ms-window
counter strictly exceeds 3, both for entering Save from Normal and for the
Save-mode commit; in Normal mode a release before the threshold leaves the
mode flags and patch data unchanged and resets the counter to 0; in Save mode
a release before the threshold leaves the mode flags and patch data unchanged
but does not reset the counter, which stays armed. -/
theorem C6_long_press_threshold :
    (∀ (s : FwSt) (p : PassIn), s.PatchMode = false → s.SaveMode = false →
      (loopStep s p).1.SaveMode = true →
      p.Btn0Pressed = false ∧ p.Btn0Released = false ∧
      p.Btn1Pressed = true ∧ p.Btn1Released = false ∧ s.SaveModeCounter > 3) ∧
    (∀ (s : FwSt) (p : PassIn), s.PatchMode = false → s.SaveMode = true →
      (loopStep s p).1.SaveMode = false →
      p.Btn1Pressed = true ∧ p.Btn1Released = false ∧ s.SaveModeCounter > 3) ∧
    (∀ (s : FwSt) (e v : Nat), s.PatchMode = false → s.SaveMode = false →
      (loopStep s ⟨e, v, false, false, true, true⟩).1.SaveModeCounter = 0 ∧
      (loopStep s ⟨e, v, false, false, true, true⟩).1.SvMdCntrActive = false ∧
      (loopStep s ⟨e, v, false, false, true, true⟩).1.PatchMode = false ∧
      (loopStep s ⟨e, v, false, false, true, true⟩).1.SaveMode = false ∧
      (loopStep s ⟨e, v, false, false, true, true⟩).1.PatchModeState = s.PatchModeState ∧
      (loopStep s ⟨e, v, false, false, true, true⟩).1.PatchChnlState = s.PatchChnlState) ∧
    (∀ (s : FwSt) (e v : Nat), s.PatchMode = false → s.SaveMode = true →
      (loopStep s ⟨e, v, false, false, true, true⟩).1.SaveModeCounter = s.SaveModeCounter ∧
      (loopStep s ⟨e, v, false, false, true, true⟩).1.SvMdCntrActive = s.SvMdCntrActive ∧
      (loopStep s ⟨e, v, false, false, true, true⟩).1.PatchMode = false ∧
      (loopStep s ⟨e, v, false, false, true, true⟩).1.SaveMode = true ∧
      (loopStep s ⟨e, v, false, false, true, true⟩).1.PatchModeState = s.PatchModeState ∧
      (loopStep s ⟨e, v, false, false, true, true⟩).1.PatchChnlState = s.PatchChnlState) := by
  refine ⟨?_, ?_, ?_, ?_⟩
  · intro s p hpm hsm
    rcases p with ⟨e, v, b0p, b0r, b1p, b1r⟩
    cases b0p <;> cases b0r <;> cases b1p <;> cases b1r <;>
      simp [loopStep, checkSelector, normalArm, updateNvmData, updN, hpm, hsm,
        apply_ite FwSt.SaveMode]
  · intro s p hpm hsm
    rcases p with ⟨e, v, b0p, b0r, b1p, b1r⟩
    cases b0p <;> cases b0r <;> cases b1p <;> cases b1r <;>
      simp [loopStep, checkSelector, saveArm, updateNvmData, hpm, hsm,
        apply_ite FwSt.SaveMode]
  · intro s e v hpm hsm
    refine ⟨?_, ?_, ?_, ?_, ?_, ?_⟩ <;>
      simp only [loopStep, checkSelector, normalArm, hpm, hsm] <;>
      norm_num <;>
      split <;>
      simp_all [updateNvmData, encodeNvm, updN]
  · intro s e v hpm hsm
    refine ⟨?_, ?_, ?_, ?_, ?_, ?_⟩ <;>
      simp [loopStep, checkSelector, saveArm, hpm, hsm]

/-- C6 witness: in Normal mode releasing the select button resets the counter
to 0 (reset state, concrete pass). -/
theorem C6_witness :
    (loopStep initSt ⟨0, 0, false, false, true, true⟩).1.SaveModeCounter = 0 :=
  (C6_long_press_threshold.2.2.1 initSt 0 0 rfl rfl).1

/-- C7: evaluation of the Save-mode long-press commit at the concrete state
`c7St` (channels 0 on/Linear, 1 off, 2 on/Log, 3 off; slot 2 selected;
counter 4).  The patch copy, the return to Normal and the persist all happen
as claimed, but the final Selection Index is 2 (the selector reading), not 0:
the commit branch's explicit reset to 0 is overwritten by the Save arm's
unconditional `SelIndex = SelVal` tracking in the same pass. -/
theorem C7_commit_eval :
    (loopStep c7St ⟨0, 2, false, false, true, false⟩).1.SaveMode = false ∧
    (loopStep c7St ⟨0, 2, false, false, true, false⟩).1.PatchMode = false ∧
    (loopStep c7St ⟨0, 2, false, false, true, false⟩).1.PatchChnlState 2 0 = true ∧
    (loopStep c7St ⟨0, 2, false, false, true, false⟩).1.PatchChnlState 2 1 = false ∧
    (loopStep c7St ⟨0, 2, false, false, true, false⟩).1.PatchChnlState 2 2 = true ∧
    (loopStep c7St ⟨0, 2, false, false, true, false⟩).1.PatchChnlState 2 3 = false ∧
    (loopStep c7St ⟨0, 2, false, false, true, false⟩).1.PatchModeState 2 0 = 0 ∧
    (loopStep c7St ⟨0, 2, false, false, true, false⟩).1.PatchModeState 2 1 = 0 ∧
    (loopStep c7St ⟨0, 2, false, false, true, false⟩).1.PatchModeState 2 2 = 2 ∧
    (loopStep c7St ⟨0, 2, false, false, true, false⟩).1.PatchModeState 2 3 = 0 ∧
    (loopStep c7St ⟨0, 2, false, false, true, false⟩).1.NvmData =
      encodeNvm (loopStep c7St ⟨0, 2, false, false, true, false⟩).1 ∧
    (loopStep c7St ⟨0, 2, false, false, true, false⟩).1.SelIndex = 2 := by
  refine ⟨rfl, rfl, rfl, rfl, rfl, rfl, rfl, rfl, rfl, rfl, by decide, rfl⟩

/-- C9: after booting from a record persisted in Patch mode, the state has
Patch mode set with no active patch (pointer at the sentinel 255) — as the
claim itself notes this state is reachable — and the LED recompute's read of
the active patch's enabled flags then indexes the 4-element patch array at
255: the bounds-checked `CheckLeds` returns `none` (out-of-bounds access),
contradicting the claim that every array access in a cycle stays within the
4-element bounds. -/
theorem C9_checkleds_out_of_bounds :
    (readNvmData (encodeNvm { initSt with PatchMode := true }) initSt).PatchMode = true ∧
    (readNvmData (encodeNvm { initSt with PatchMode := true }) initSt).PatchActive = 255 ∧
    checkLedsChk (readNvmData (encodeNvm { initSt with PatchMode := true }) initSt) = none := by
  refine ⟨rfl, rfl, rfl⟩

end ExpMult
